import Mathlib

/-!
# Verification of the NesVentory Gemini Plugin HTTP service (`src/api.py`)

A shallow embedding of the request-handling logic of `src/api.py`, a FastAPI
service that forwards uploaded images and barcode strings to the Google Gemini
API and reshapes the model's JSON reply into fixed response schemas.

Modelling conventions:

* JSON values produced by Python's `json.loads` are modelled by the inductive
  type `JsonVal`; JSON numbers are modelled as rationals (`ℚ`), since the
  service performs no arithmetic on them — whatever number the parser produced
  flows unchanged into the response field.
* Python's `json.loads` itself, the PIL image decoder, and the Gemini network
  call are external libraries, not code of this repository.  Each is modelled
  as an oracle argument of the route function: `Except String JsonVal` for the
  parse outcome of the reply text (error carries the exception message),
  `Except String Unit` for `PIL.Image.open` (error carries `str(e)`), and
  `GeminiOutcome` for `generate_content`.
* Pydantic validation of a response model rejects values of the wrong type.
  The projection functions return `Except Unit _`, with `.error ()` standing
  for "constructing the response model raises" (pydantic `ValidationError`,
  `AttributeError` from `.get` on a non-dict, or `TypeError` from iterating a
  non-list).  Pydantic's lax coercions (e.g. numeric strings to float) are not
  modelled; no theorem below depends on those branches.
* `HTTPException(status_code, detail)` raised past the route boundary is
  modelled by `RouteResult.err`; a normal return by `RouteResult.ok`.
-/

/-- A JSON value as produced by Python's `json.loads`.  Objects keep their
key/value pairs in emission order; lookup takes the last binding, matching
Python dict construction from duplicate keys. -/
inductive JsonVal : Type where
  | null : JsonVal
  | bool : Bool → JsonVal
  | num : ℚ → JsonVal
  | str : String → JsonVal
  | arr : List JsonVal → JsonVal
  | obj : List (String × JsonVal) → JsonVal

/-- `d.get(k)` on a Python dict built from the pairs `kvs`: the last binding
for `k` wins, absence gives `None` (here `none`). -/
def objGet (kvs : List (String × JsonVal)) (k : String) : Option JsonVal :=
  kvs.reverse.lookup k

/-- Python `text[:500]` — the first 500 code points. -/
def truncate500 (s : String) : String := ⟨s.data.take 500⟩

/-- The detail payload of a FastAPI `HTTPException`: either a plain string or
the structured three-field dict `{"error": …, "message": …, "error_code": …}`
used by this service. -/
inductive ErrDetail : Type where
  | plain : String → ErrDetail
  | structured : (error : String) → (message : String) → (code : String) → ErrDetail
deriving DecidableEq, Repr

/-- The machine-readable error code carried by a detail payload, when the
payload is the structured three-field form. -/
def ErrDetail.code? : ErrDetail → Option String
  | .plain _ => none
  | .structured _ _ c => some c

/-- Outcome of a route handler: a typed response, or an `HTTPException`
with a status code and a detail payload raised past the route boundary. -/
inductive RouteResult (α : Type) : Type where
  | ok : α → RouteResult α
  | err : Nat → ErrDetail → RouteResult α
deriving DecidableEq, Repr

/-- The HTTP status of a route outcome (`200` for a normal return). -/
def RouteResult.status : RouteResult α → Nat
  | .ok _ => 200
  | .err s _ => s

/-- The error code of a route outcome, when it is a structured error. -/
def RouteResult.errorCode? : RouteResult α → Option String
  | .ok _ => none
  | .err _ d => d.code?

/-- Outcome of `gemini_model.generate_content`: the call raised, or returned
reply text.  `parsed` is the outcome of `json.loads` applied to that text
(an oracle, since the JSON grammar belongs to Python's stdlib). -/
inductive GeminiOutcome : Type where
  | failure : (msg : String) → GeminiOutcome
  | reply : (text : String) → (parsed : Except String JsonVal) → GeminiOutcome

/-- `DetectedItem` (pydantic model): one identified collectible. -/
structure DetectedItem : Type where
  name : String
  description : Option String
  brand : Option String
  item_number : Option String
  model_number : Option String
  retired_status : Option String
  estimated_value : Option ℚ
  confidence : Option ℚ
  estimation_date : Option String
deriving DecidableEq, Repr

/-- `ItemIdentificationResponse` (pydantic model). -/
structure ItemIdentificationResponse : Type where
  items : List DetectedItem
  raw_response : Option String
deriving DecidableEq, Repr

/-- `DataTagResponse` (pydantic model). -/
structure DataTagResponse : Type where
  manufacturer : Option String
  brand : Option String
  model_number : Option String
  serial_number : Option String
  production_date : Option String
  estimated_value : Option ℚ
  additional_info : Option (List (String × JsonVal))
  raw_response : Option String

/-- `BarcodeResponse` (pydantic model). -/
structure BarcodeResponse : Type where
  found : Bool
  name : Option String
  description : Option String
  brand : Option String
  model_number : Option String
  estimated_value : Option ℚ
  estimation_date : Option String
  category : Option String
  raw_response : Option String
deriving DecidableEq, Repr

/-- Feeding `d.get(key)` into a pydantic `Optional[str]` field: a missing key
and a JSON `null` both become the absent value `none`; a string passes
through unchanged; any other value makes model construction raise. -/
def projOptStr : Option JsonVal → Except Unit (Option String)
  | none => .ok none
  | some .null => .ok none
  | some (.str s) => .ok (some s)
  | some _ => .error ()

/-- Feeding `d.get(key)` into a pydantic `Optional[float]` field: missing or
`null` becomes `none`; a JSON number passes through; anything else raises. -/
def projOptNum : Option JsonVal → Except Unit (Option ℚ)
  | none => .ok none
  | some .null => .ok none
  | some (.num q) => .ok (some q)
  | some _ => .error ()

/-- Feeding `d.get(key)` into a pydantic `Optional[dict]` field. -/
def projOptDict : Option JsonVal → Except Unit (Option (List (String × JsonVal)))
  | none => .ok none
  | some .null => .ok none
  | some (.obj kvs) => .ok (some kvs)
  | some _ => .error ()

/-- `item.get("name", "Unknown Item")` into the required `str` field `name`:
a missing key takes the default, a string passes through, anything else
(including `null`) raises. -/
def projName : Option JsonVal → Except Unit String
  | none => .ok "Unknown Item"
  | some (.str s) => .ok s
  | some _ => .error ()

/-- `result_data.get("found", False)` into the required `bool` field `found`. -/
def projFound : Option JsonVal → Except Unit Bool
  | none => .ok false
  | some (.bool b) => .ok b
  | some _ => .error ()

/-- The `DetectedItem(...)` construction of `identify_item_from_image`
(lines 315–325 of `src/api.py`) applied to one element of the `items` array.
A non-dict element makes `item.get` raise. -/
def projDetectedItem : JsonVal → Except Unit DetectedItem
  | .obj kvs => do
    let name ← projName (objGet kvs "name")
    let description ← projOptStr (objGet kvs "description")
    let brand ← projOptStr (objGet kvs "brand")
    let item_number ← projOptStr (objGet kvs "item_number")
    let model_number ← projOptStr (objGet kvs "model_number")
    let retired_status ← projOptStr (objGet kvs "retired_status")
    let estimated_value ← projOptNum (objGet kvs "estimated_value")
    let confidence ← projOptNum (objGet kvs "confidence")
    let estimation_date ← projOptStr (objGet kvs "estimation_date")
    pure ⟨name, description, brand, item_number, model_number, retired_status,
          estimated_value, confidence, estimation_date⟩
  | _ => .error ()

/-- The `for item in items` loop of `identify_item_from_image`: project each
array element in order, appending to `detected_items`; the first failing
element aborts the loop by raising. -/
def projItemList : List JsonVal → Except Unit (List DetectedItem)
  | [] => .ok []
  | j :: rest => do
    let d ← projDetectedItem j
    let ds ← projItemList rest
    pure (d :: ds)

/-- `result_data.get("items", [])` followed by the `for item in items` loop:
a missing key defaults to the empty list; a present non-array value makes
the loop or the element projection raise. -/
def projItems : Option JsonVal → Except Unit (List DetectedItem)
  | none => .ok []
  | some (.arr xs) => projItemList xs
  | some _ => .error ()

/-- The decode-and-project step of the identification pipeline applied to a
successfully parsed reply (lines 309–330): extract `items`, project each
element, and attach the first 500 characters of the raw text. -/
def decodeIdentification (j : JsonVal) (text : String) :
    Except Unit ItemIdentificationResponse :=
  match j with
  | .obj kvs => do
    let items ← projItems (objGet kvs "items")
    pure ⟨items, some (truncate500 text)⟩
  | _ => .error ()

/-- The `DataTagResponse(...)` construction of `parse_data_tag`
(lines 445–454) applied to a successfully parsed reply. -/
def decodeDataTag (j : JsonVal) (text : String) : Except Unit DataTagResponse :=
  match j with
  | .obj kvs => do
    let manufacturer ← projOptStr (objGet kvs "manufacturer")
    let brand ← projOptStr (objGet kvs "brand")
    let model_number ← projOptStr (objGet kvs "model_number")
    let serial_number ← projOptStr (objGet kvs "serial_number")
    let production_date ← projOptStr (objGet kvs "production_date")
    let estimated_value ← projOptNum (objGet kvs "estimated_value")
    let additional_info ← projOptDict (objGet kvs "additional_info")
    pure ⟨manufacturer, brand, model_number, serial_number, production_date,
          estimated_value, additional_info, some (truncate500 text)⟩
  | _ => .error ()

/-- The `BarcodeResponse(...)` construction of `lookup_barcode`
(lines 526–536) applied to a successfully parsed reply. -/
def decodeBarcode (j : JsonVal) (text : String) : Except Unit BarcodeResponse :=
  match j with
  | .obj kvs => do
    let found ← projFound (objGet kvs "found")
    let name ← projOptStr (objGet kvs "name")
    let description ← projOptStr (objGet kvs "description")
    let brand ← projOptStr (objGet kvs "brand")
    let model_number ← projOptStr (objGet kvs "model_number")
    let estimated_value ← projOptNum (objGet kvs "estimated_value")
    let estimation_date ← projOptStr (objGet kvs "estimation_date")
    let category ← projOptStr (objGet kvs "category")
    pure ⟨found, name, description, brand, model_number, estimated_value,
          estimation_date, category, some (truncate500 text)⟩
  | _ => .error ()

/-- `not file.content_type or not file.content_type.startswith("image/")`:
a `None` content type is falsy, the empty string is falsy and also fails
`startswith`, so validity reduces to the `image/` prefix test. -/
def isImageContentType : Option String → Bool
  | none => false
  | some ct => "image/".data.isPrefixOf ct.data

/-- Python's interpolation of an `Optional[str]` into an f-string:
`None` prints as the text `None`. -/
def pyShowOptStr : Option String → String
  | none => "None"
  | some s => s

/-- Placeholder for the unmodelled text of `str(e)` when constructing a
response model raises (pydantic `ValidationError`, `AttributeError`,
`TypeError`); no theorem below inspects this string. -/
def validationErrMsg : String := "validation error"

/-- The `POST /nesventory/identify/image` handler `identify_item_from_image`
(lines 192–362 of `src/api.py`).  Arguments model, in order: whether the
global `gemini_model` handle is set; the upload's declared content type; the
uploaded bytes; the outcome of `PIL.Image.open` on those bytes; and the
outcome of the Gemini call together with the `json.loads` outcome on its
reply text. -/
def identify_item_from_image (geminiConfigured : Bool)
    (contentType : Option String) (imageData : List Nat)
    (imageDecode : Except String Unit) (gemini : GeminiOutcome) :
    RouteResult ItemIdentificationResponse :=
  if ¬ geminiConfigured then
    .err 503 (.structured "Service unavailable"
      "Gemini AI is not configured. Please set GEMINI_API_KEY environment variable."
      "GEMINI_NOT_CONFIGURED")
  else if ¬ isImageContentType contentType then
    .err 400 (.structured "Invalid file type"
      ("File type '" ++ pyShowOptStr contentType ++
        "' is not supported. Only image files are accepted.")
      "INVALID_FILE_TYPE")
  else if imageData = [] then
    .err 400 (.structured "Empty file" "The uploaded file is empty" "EMPTY_FILE")
  else match imageDecode with
    | .error e =>
      .err 400 (.structured "Invalid image data"
        ("Unable to process image: " ++ e) "INVALID_IMAGE_DATA")
    | .ok () => match gemini with
      | .failure msg =>
        .err 500 (.structured "AI processing failed"
          ("Failed to process image with Gemini: " ++ msg) "GEMINI_API_ERROR")
      | .reply text parsed => match parsed with
        | .error _ => .ok ⟨[], some (truncate500 text)⟩
        | .ok j => match decodeIdentification j text with
          | .ok r => .ok r
          | .error () =>
            .err 500 (.structured "AI processing failed"
              ("Failed to process image with Gemini: " ++ validationErrMsg)
              "GEMINI_API_ERROR")

/-- The `POST /parse-data-tag` handler `parse_data_tag` (lines 365–467).
`Image.open` and `json.loads` are not wrapped locally here: their failures
propagate to the outer `except Exception` handler, which raises a 500 with
code `PARSE_ERROR`; the empty-file check raises a 400 whose detail is the
plain string `"Empty file"`. -/
def parse_data_tag (geminiConfigured : Bool) (contentType : Option String)
    (imageData : List Nat) (imageDecode : Except String Unit)
    (gemini : GeminiOutcome) : RouteResult DataTagResponse :=
  if ¬ geminiConfigured then
    .err 503 (.structured "Service unavailable" "Gemini AI is not configured"
      "GEMINI_NOT_CONFIGURED")
  else if ¬ isImageContentType contentType then
    .err 400 (.structured "Invalid file type" "Only image files are accepted"
      "INVALID_FILE_TYPE")
  else if imageData = [] then
    .err 400 (.plain "Empty file")
  else match imageDecode with
    | .error e => .err 500 (.structured "Parsing failed" e "PARSE_ERROR")
    | .ok () => match gemini with
      | .failure msg => .err 500 (.structured "Parsing failed" msg "PARSE_ERROR")
      | .reply text parsed => match parsed with
        | .error msg => .err 500 (.structured "Parsing failed" msg "PARSE_ERROR")
        | .ok j => match decodeDataTag j text with
          | .ok r => .ok r
          | .error () =>
            .err 500 (.structured "Parsing failed" validationErrMsg "PARSE_ERROR")

/-- The `POST /lookup-barcode` handler `lookup_barcode` (lines 470–547).
`json.loads` is not wrapped locally: a parse failure propagates to the
route's `except Exception` handler, which raises a 500 with code
`LOOKUP_ERROR`. -/
def lookup_barcode (geminiConfigured : Bool) (barcode : String)
    (upc : Option String) (gemini : GeminiOutcome) :
    RouteResult BarcodeResponse :=
  if ¬ geminiConfigured then
    .err 503 (.structured "Service unavailable" "Gemini AI is not configured"
      "GEMINI_NOT_CONFIGURED")
  else match gemini with
    | .failure msg => .err 500 (.structured "Lookup failed" msg "LOOKUP_ERROR")
    | .reply text parsed => match parsed with
      | .error msg => .err 500 (.structured "Lookup failed" msg "LOOKUP_ERROR")
      | .ok j => match decodeBarcode j text with
        | .ok r => .ok r
        | .error () =>
          .err 500 (.structured "Lookup failed" validationErrMsg "LOOKUP_ERROR")

/-- Outcome of the catch-all `GET /{full_path:path}` handler. -/
inductive FrontendResult : Type where
  | notFound404 : FrontendResult
  | serveIndexHtml : FrontendResult
  | frontendNotBuilt404 : FrontendResult
deriving DecidableEq, Repr

/-- The tuple `api_prefixes` of `serve_frontend` (line 555). -/
def api_prefixes : List String :=
  ["health", "nesventory", "parse-data-tag", "lookup-barcode", "docs",
   "redoc", "openapi.json", "api"]

/-- Python's `full_path.startswith(api_prefixes)` with a tuple argument:
true when any member of the tuple is a string prefix of `full_path`. -/
def startswithAny (full_path : String) (prefixes : List String) : Bool :=
  prefixes.any (fun p => p.data.isPrefixOf full_path.data)

/-- The catch-all `GET /{full_path:path}` handler `serve_frontend`
(lines 551–567).  `indexExists` models whether `dist/index.html` exists. -/
def serve_frontend (indexExists : Bool) (full_path : String) : FrontendResult :=
  if startswithAny full_path api_prefixes then .notFound404
  else if indexExists then .serveIndexHtml
  else .frontendNotBuilt404

/-- The digit part of Python's `int(str)` conversion: decimal digits with
single underscores allowed between digits, accumulated into a value.
(`acc` holds the digits consumed so far.) -/
def pyDigitsAux (acc : ℕ) : List Char → Option ℕ
  | [] => some acc
  | '_' :: c :: rest =>
    if c.isDigit then pyDigitsAux (acc * 10 + (c.toNat - 48)) rest else none
  | ['_'] => none
  | c :: rest =>
    if c.isDigit then pyDigitsAux (acc * 10 + (c.toNat - 48)) rest else none

/-- A nonempty run of decimal digits with single interior underscores,
as accepted by Python's `int(str)`. -/
def pyDigits : List Char → Option ℕ
  | [] => none
  | c :: rest => if c.isDigit then pyDigitsAux (c.toNat - 48) rest else none

/-- Python's `int(str)` on a string: optional surrounding whitespace, an
optional sign, then decimal digits with single interior underscores; any
other shape raises `ValueError` (here `none`).  (Non-ASCII digits and
non-ASCII whitespace, which CPython also accepts, are not modelled; no
theorem below depends on them.) -/
def pyInt? (s : String) : Option ℤ :=
  let cs := ((s.data.dropWhile Char.isWhitespace).reverse.dropWhile
    Char.isWhitespace).reverse
  match cs with
  | '+' :: rest => (pyDigits rest).map Int.ofNat
  | '-' :: rest => (pyDigits rest).map (fun n => -(n : ℤ))
  | rest => (pyDigits rest).map Int.ofNat

/-- The port-resolution logic of the `__main__` block (lines 574–581):
`int(os.environ.get("HOST_PORT", os.environ.get("PORT", "8002")))`, with a
range check raising `ValueError`; on `ValueError` the default 8002 is used. -/
def resolve_port (host_port port : Option String) : ℕ :=
  let raw := host_port.getD (port.getD "8002")
  match pyInt? raw with
  | none => 8002
  | some p => if p < 1 ∨ p > 65535 then 8002 else p.toNat

/-- A JSON lookup result that the schemas allow for an optional string
field: absent, `null`, or a string. -/
def StrOrAbsent (v : Option JsonVal) : Prop :=
  v = none ∨ v = some .null ∨ ∃ s, v = some (.str s)

/-- A JSON lookup result that the schemas allow for an optional numeric
field: absent, `null`, or a number. -/
def NumOrAbsent (v : Option JsonVal) : Prop :=
  v = none ∨ v = some .null ∨ ∃ q, v = some (.num q)

/-- A projected optional string field reflects its source lookup exactly:
missing and `null` map to absent, a string passes through unchanged. -/
def ReflectsStr (f : Option String) (v : Option JsonVal) : Prop :=
  (v = none → f = none) ∧ (v = some .null → f = none) ∧
  ∀ s, v = some (.str s) → f = some s

/-- A projected optional numeric field reflects its source lookup exactly. -/
def ReflectsNum (f : Option ℚ) (v : Option JsonVal) : Prop :=
  (v = none → f = none) ∧ (v = some .null → f = none) ∧
  ∀ q, v = some (.num q) → f = some q

/-- An element of the `items` array that matches the identification schema:
an object with a string `name` and well-typed-or-absent optional fields. -/
def WellTypedItem (j : JsonVal) : Prop :=
  ∃ kvs, j = .obj kvs ∧ (∃ n, objGet kvs "name" = some (.str n)) ∧
    StrOrAbsent (objGet kvs "description") ∧
    StrOrAbsent (objGet kvs "brand") ∧
    StrOrAbsent (objGet kvs "item_number") ∧
    StrOrAbsent (objGet kvs "model_number") ∧
    StrOrAbsent (objGet kvs "retired_status") ∧
    NumOrAbsent (objGet kvs "estimated_value") ∧
    NumOrAbsent (objGet kvs "confidence") ∧
    StrOrAbsent (objGet kvs "estimation_date")

/-- A projected `DetectedItem` agrees field-by-field with its source
object: `name` is copied exactly, and every optional field reflects the
corresponding lookup. -/
def ItemReflects (d : DetectedItem) (j : JsonVal) : Prop :=
  ∀ kvs, j = .obj kvs →
    (∀ n, objGet kvs "name" = some (.str n) → d.name = n) ∧
    ReflectsStr d.description (objGet kvs "description") ∧
    ReflectsStr d.brand (objGet kvs "brand") ∧
    ReflectsStr d.item_number (objGet kvs "item_number") ∧
    ReflectsStr d.model_number (objGet kvs "model_number") ∧
    ReflectsStr d.retired_status (objGet kvs "retired_status") ∧
    ReflectsNum d.estimated_value (objGet kvs "estimated_value") ∧
    ReflectsNum d.confidence (objGet kvs "confidence") ∧
    ReflectsStr d.estimation_date (objGet kvs "estimation_date")

/-- Normalization property of one optional string field of a produced
response: a missing key or JSON `null` yields the absent value, and an
empty string appears only if the source held exactly the empty string. -/
def NormStr (v : Option JsonVal) (f : Option String) : Prop :=
  ((v = none ∨ v = some .null) → f = none) ∧
  (f = some "" → v = some (.str ""))

/-- Normalization property of one optional numeric field. -/
def NormNum (v : Option JsonVal) (f : Option ℚ) : Prop :=
  (v = none ∨ v = some .null) → f = none

theorem ebind_ok {α β : Type} {x : Except Unit α} {f : α → Except Unit β}
    {b : β} (h : (x >>= f) = .ok b) : ∃ a, x = .ok a ∧ f a = .ok b := by
  cases x with
  | ok a => exact ⟨a, rfl, h⟩
  | error e => simp [Bind.bind, Except.bind] at h

theorem isPrefixOf_append (l s : List Char) : l.isPrefixOf (l ++ s) = true := by
  induction l with
  | nil => simp [List.isPrefixOf]
  | cons a as ih => simp [List.isPrefixOf, ih]

theorem projOptStr_reflects {v : Option JsonVal} (h : StrOrAbsent v) :
    ∃ f, projOptStr v = .ok f ∧ ReflectsStr f v := by
  rcases h with rfl | rfl | ⟨s, rfl⟩ <;>
    exact ⟨_, rfl, by simp [ReflectsStr]⟩

theorem projOptNum_reflects {v : Option JsonVal} (h : NumOrAbsent v) :
    ∃ f, projOptNum v = .ok f ∧ ReflectsNum f v := by
  rcases h with rfl | rfl | ⟨q, rfl⟩ <;>
    exact ⟨_, rfl, by simp [ReflectsNum]⟩

theorem projOptStr_norm {v : Option JsonVal} {f : Option String}
    (h : projOptStr v = .ok f) : NormStr v f := by
  cases v with
  | none =>
    refine ⟨fun _ => ?_, fun hf => ?_⟩
    · simpa [projOptStr] using h.symm
    · simp [projOptStr] at h; simp [← h] at hf
  | some jv =>
    cases jv with
    | null =>
      refine ⟨fun _ => ?_, fun hf => ?_⟩
      · simpa [projOptStr] using h.symm
      · simp [projOptStr] at h; simp [← h] at hf
    | str s =>
      refine ⟨fun hv => ?_, fun hf => ?_⟩
      · rcases hv with hv | hv <;> cases hv
      · simp [projOptStr] at h
        subst h
        simp at hf
        subst hf
        rfl
    | bool b => simp [projOptStr] at h
    | num q => simp [projOptStr] at h
    | arr xs => simp [projOptStr] at h
    | obj kvs => simp [projOptStr] at h

theorem projOptNum_norm {v : Option JsonVal} {f : Option ℚ}
    (h : projOptNum v = .ok f) : NormNum v f := by
  rintro (rfl | rfl) <;> simpa [projOptNum] using h.symm

theorem projOptDict_norm {v : Option JsonVal}
    {f : Option (List (String × JsonVal))} (h : projOptDict v = .ok f) :
    (v = none ∨ v = some .null) → f = none := by
  rintro (rfl | rfl) <;> simpa [projOptDict] using h.symm

/-- C3: on every request to any of the three AI-backed routes with the
global model handle unset, the route returns the 503 response with error
code `GEMINI_NOT_CONFIGURED` as its very first check; the result is the
same for every upload, decode outcome and Gemini oracle, so no external
model call can influence it (none is performed). -/
theorem ai_routes_fail_fast_when_unconfigured :
    (∀ ct data dec gem, identify_item_from_image false ct data dec gem =
      .err 503 (.structured "Service unavailable"
        "Gemini AI is not configured. Please set GEMINI_API_KEY environment variable."
        "GEMINI_NOT_CONFIGURED")) ∧
    (∀ ct data dec gem, parse_data_tag false ct data dec gem =
      .err 503 (.structured "Service unavailable" "Gemini AI is not configured"
        "GEMINI_NOT_CONFIGURED")) ∧
    (∀ b upc gem, lookup_barcode false b upc gem =
      .err 503 (.structured "Service unavailable" "Gemini AI is not configured"
        "GEMINI_NOT_CONFIGURED")) := by
  refine ⟨fun ct data dec gem => ?_, fun ct data dec gem => ?_,
    fun b upc gem => ?_⟩ <;>
    simp [identify_item_from_image, parse_data_tag, lookup_barcode]

/-- C7: on both image-accepting routes, a missing or non-`image/` declared
content type yields the 400 response with code `INVALID_FILE_TYPE`; the
result is the same for every payload, decode outcome and Gemini oracle, so
it is returned before any read or decode of the bytes. -/
theorem invalid_content_type_rejected_before_read
    (ct : Option String) (h : isImageContentType ct = false) :
    (∀ data dec gem, identify_item_from_image true ct data dec gem =
      .err 400 (.structured "Invalid file type"
        ("File type '" ++ pyShowOptStr ct ++
          "' is not supported. Only image files are accepted.")
        "INVALID_FILE_TYPE")) ∧
    (∀ data dec gem, parse_data_tag true ct data dec gem =
      .err 400 (.structured "Invalid file type" "Only image files are accepted"
        "INVALID_FILE_TYPE")) := by
  refine ⟨fun data dec gem => ?_, fun data dec gem => ?_⟩ <;>
    simp [identify_item_from_image, parse_data_tag, h]

theorem invalid_content_type_rejected_before_read_witness :
    identify_item_from_image true (some "text/plain") [7] (.error "x")
        (.failure "y") =
      .err 400 (.structured "Invalid file type"
        "File type 'text/plain' is not supported. Only image files are accepted."
        "INVALID_FILE_TYPE") ∧
    parse_data_tag true none [7] (.ok ()) (.failure "y") =
      .err 400 (.structured "Invalid file type" "Only image files are accepted"
        "INVALID_FILE_TYPE") :=
  ⟨(invalid_content_type_rejected_before_read (some "text/plain")
      (by decide)).1 [7] (.error "x") (.failure "y"),
   (invalid_content_type_rejected_before_read none rfl).2 [7] (.ok ())
      (.failure "y")⟩

/-- C6 (counterexample): on the data-tag route with a supported image media
type and an empty body, the raised 400 carries the plain-string detail
`"Empty file"`, not the structured three-field error — its machine-readable
error code is absent, refuting the claim that every image route yields the
structured "empty file" error code. -/
theorem empty_upload_data_tag_lacks_error_code :
    parse_data_tag true (some "image/jpeg") [] (.ok ()) (.failure "unused") =
      .err 400 (.plain "Empty file") ∧
    (parse_data_tag true (some "image/jpeg") [] (.ok ())
        (.failure "unused")).errorCode? = none := by
  exact ⟨rfl, rfl⟩

/-- C6 (amended): for every supported image media type, an empty upload
body is rejected before any AI call on both image routes — the
identification route with the structured 400 error carrying label
`Empty file`, message and code `EMPTY_FILE`; the data-tag route with a 400
whose detail is the plain string `"Empty file"`, carrying no error code.
The result is the same for every decode outcome and Gemini oracle, so the
AI client is never reached. -/
theorem empty_upload_rejected_before_ai_call
    (ct : Option String) (h : isImageContentType ct = true) :
    (∀ dec gem, identify_item_from_image true ct [] dec gem =
      .err 400 (.structured "Empty file" "The uploaded file is empty"
        "EMPTY_FILE")) ∧
    (∀ dec gem, parse_data_tag true ct [] dec gem =
      .err 400 (.plain "Empty file")) := by
  refine ⟨fun dec gem => ?_, fun dec gem => ?_⟩ <;>
    simp [identify_item_from_image, parse_data_tag, h]

theorem empty_upload_rejected_before_ai_call_witness :
    identify_item_from_image true (some "image/png") [] (.error "x")
        (.failure "y") =
      .err 400 (.structured "Empty file" "The uploaded file is empty"
        "EMPTY_FILE") ∧
    parse_data_tag true (some "image/png") [] (.ok ()) (.failure "y") =
      .err 400 (.plain "Empty file") :=
  ⟨(empty_upload_rejected_before_ai_call (some "image/png") (by decide)).1
      (.error "x") (.failure "y"),
   (empty_upload_rejected_before_ai_call (some "image/png") (by decide)).2
      (.ok ()) (.failure "y")⟩

/-- C2 (counterexample): on the data-tag route, bytes that pass the
content-type and non-empty checks but fail image decoding produce a 500
with code `PARSE_ERROR` — not a 400-equivalent invalid-input condition —
because `Image.open` is not wrapped locally and its failure reaches the
outer `except Exception` handler. -/
theorem undecodable_image_on_data_tag_is_500 :
    parse_data_tag true (some "image/jpeg") [0]
        (.error "cannot identify image file") (.failure "unused") =
      .err 500 (.structured "Parsing failed" "cannot identify image file"
        "PARSE_ERROR") ∧
    (parse_data_tag true (some "image/jpeg") [0]
        (.error "cannot identify image file") (.failure "unused")).status =
      500 := by
  exact ⟨rfl, rfl⟩

/-- C2 (amended): on undecodable uploaded bytes that passed the
content-type and non-empty checks, only the identification route exits
with the 400 `INVALID_IMAGE_DATA` condition; the data-tag route lets the
decode failure reach its outer exception handler and exits with a 500
carrying code `PARSE_ERROR`. -/
theorem undecodable_image_handling
    (ct : Option String) (h : isImageContentType ct = true)
    (data : List ℕ) (hd : data ≠ []) (e : String) :
    (∀ gem, identify_item_from_image true ct data (.error e) gem =
      .err 400 (.structured "Invalid image data"
        ("Unable to process image: " ++ e) "INVALID_IMAGE_DATA")) ∧
    (∀ gem, parse_data_tag true ct data (.error e) gem =
      .err 500 (.structured "Parsing failed" e "PARSE_ERROR")) := by
  refine ⟨fun gem => ?_, fun gem => ?_⟩ <;>
    simp [identify_item_from_image, parse_data_tag, h, hd]

theorem undecodable_image_handling_witness :
    identify_item_from_image true (some "image/gif") [3] (.error "bad bytes")
        (.failure "y") =
      .err 400 (.structured "Invalid image data"
        "Unable to process image: bad bytes" "INVALID_IMAGE_DATA") ∧
    parse_data_tag true (some "image/gif") [3] (.error "bad bytes")
        (.failure "y") =
      .err 500 (.structured "Parsing failed" "bad bytes" "PARSE_ERROR") :=
  ⟨(undecodable_image_handling (some "image/gif") (by decide) [3]
      (by decide) "bad bytes").1 (.failure "y"),
   (undecodable_image_handling (some "image/gif") (by decide) [3]
      (by decide) "bad bytes").2 (.failure "y")⟩

/-- C1 (counterexample): when the model reply is not valid JSON, the
data-tag route raises a 500 `PARSE_ERROR` and the barcode route a 500
`LOOKUP_ERROR` past the route boundary — they do not return the all-null
default projection with truncated raw text, refuting the claim for two of
the three pipelines. -/
theorem malformed_json_raises_on_data_tag_and_barcode :
    parse_data_tag true (some "image/jpeg") [1] (.ok ())
        (.reply "not json" (.error "Expecting value: line 1 column 1 (char 0)")) =
      .err 500 (.structured "Parsing failed"
        "Expecting value: line 1 column 1 (char 0)" "PARSE_ERROR") ∧
    lookup_barcode true "012345678905" none
        (.reply "not json" (.error "Expecting value: line 1 column 1 (char 0)")) =
      .err 500 (.structured "Lookup failed"
        "Expecting value: line 1 column 1 (char 0)" "LOOKUP_ERROR") := by
  exact ⟨rfl, rfl⟩

/-- C1 (amended): when the model reply is not valid JSON, only the
identification pipeline degrades without raising, returning the empty item
list together with the first 500 characters of the raw text; the data-tag
pipeline raises a 500 with code `PARSE_ERROR` and the barcode pipeline a
500 with code `LOOKUP_ERROR`, each carrying the parse-failure message. -/
theorem malformed_json_handling (text emsg : String) :
    (∀ ct data, isImageContentType ct = true → data ≠ [] →
      identify_item_from_image true ct data (.ok ())
          (.reply text (.error emsg)) =
        .ok ⟨[], some (truncate500 text)⟩) ∧
    (∀ ct data, isImageContentType ct = true → data ≠ [] →
      parse_data_tag true ct data (.ok ()) (.reply text (.error emsg)) =
        .err 500 (.structured "Parsing failed" emsg "PARSE_ERROR")) ∧
    (∀ b upc, lookup_barcode true b upc (.reply text (.error emsg)) =
      .err 500 (.structured "Lookup failed" emsg "LOOKUP_ERROR")) := by
  refine ⟨fun ct data h hd => ?_, fun ct data h hd => ?_, fun b upc => ?_⟩
  · simp [identify_item_from_image, h, hd]
  · simp [parse_data_tag, h, hd]
  · simp [lookup_barcode]

theorem malformed_json_handling_witness :
    identify_item_from_image true (some "image/jpeg") [1] (.ok ())
        (.reply "oops not json" (.error "Expecting value")) =
      .ok ⟨[], some "oops not json"⟩ ∧
    parse_data_tag true (some "image/jpeg") [1] (.ok ())
        (.reply "oops not json" (.error "Expecting value")) =
      .err 500 (.structured "Parsing failed" "Expecting value" "PARSE_ERROR") ∧
    lookup_barcode true "012345678905" none
        (.reply "oops not json" (.error "Expecting value")) =
      .err 500 (.structured "Lookup failed" "Expecting value" "LOOKUP_ERROR") :=
  ⟨(malformed_json_handling "oops not json" "Expecting value").1
      (some "image/jpeg") [1] (by decide) (by decide),
   (malformed_json_handling "oops not json" "Expecting value").2.1
      (some "image/jpeg") [1] (by decide) (by decide),
   (malformed_json_handling "oops not json" "Expecting value").2.2
      "012345678905" none⟩

/-- C8: a GET falling to the catch-all route whose path lies beneath any of
the literal prefixes `health`, `nesventory`, `parse-data-tag`,
`lookup-barcode`, `docs`, `redoc`, `openapi.json`, `api` is never served
frontend content: for every suffix and whether or not the frontend bundle
exists, `serve_frontend` raises the 404 `Not found`. -/
theorem api_prefix_paths_never_served_frontend
    (p : String) (hp : p ∈ api_prefixes) (s : String) (idx : Bool) :
    serve_frontend idx (p ++ s) = .notFound404 := by
  have hpre : startswithAny (p ++ s) api_prefixes = true := by
    refine List.any_eq_true.mpr ⟨p, hp, ?_⟩
    have : (p ++ s).data = p.data ++ s.data := String.data_append p s
    rw [this]
    exact isPrefixOf_append p.data s.data
  simp [serve_frontend, hpre]

theorem api_prefix_paths_never_served_frontend_witness :
    serve_frontend true ("health" ++ "/deep/sub") = .notFound404 :=
  api_prefix_paths_never_served_frontend "health" (by decide) "/deep/sub" true

/-- C10: the catch-all's exclusion test is a plain string-prefix match, so
every path that merely begins with one of the listed prefixes — including
paths such as `healthz` or `apiary` that are not those endpoints and are
not beneath them — is excluded from frontend serving and receives the 404
`Not found` instead of the frontend HTML. -/
theorem catch_all_prefix_match_overbroad (full_path : String) (idx : Bool)
    (h : ∃ p ∈ api_prefixes, p.data.isPrefixOf full_path.data = true) :
    serve_frontend idx full_path = .notFound404 := by
  have hpre : startswithAny full_path api_prefixes = true := by
    obtain ⟨p, hp, hpref⟩ := h
    exact List.any_eq_true.mpr ⟨p, hp, hpref⟩
  simp [serve_frontend, hpre]

theorem catch_all_prefix_match_overbroad_witness :
    serve_frontend true "healthz" = .notFound404 ∧
    serve_frontend true "apiary" = .notFound404 :=
  ⟨catch_all_prefix_match_overbroad "healthz" true ⟨"health", by decide, by decide⟩,
   catch_all_prefix_match_overbroad "apiary" true ⟨"api", by decide, by decide⟩⟩

/-- C9: the listen port is `HOST_PORT`, falling back to `PORT`, falling
back to the literal `"8002"` (conjunct 1); a value that does not parse as a
Python integer uses the default 8002 (conjunct 2); a value parsing outside
`[1, 65535]` uses the default 8002 (conjunct 3); a value parsing inside the
range is used as the port (conjunct 4). -/
theorem resolve_port_spec :
    (∀ pt, resolve_port none pt = resolve_port (some (pt.getD "8002")) none) ∧
    (∀ s pt, pyInt? s = none → resolve_port (some s) pt = 8002) ∧
    (∀ s pt p, pyInt? s = some p → (p < 1 ∨ p > 65535) →
      resolve_port (some s) pt = 8002) ∧
    (∀ s pt p, pyInt? s = some p → 1 ≤ p → p ≤ 65535 →
      resolve_port (some s) pt = p.toNat) := by
  refine ⟨fun pt => rfl, fun s pt h => ?_, fun s pt p h hr => ?_,
    fun s pt p h h1 h2 => ?_⟩
  · simp [resolve_port, h]
  · simp [resolve_port, h, hr]
  · have hr : ¬ (p < 1 ∨ p > 65535) := by omega
    simp [resolve_port, h, hr]

theorem resolve_port_spec_witness :
    resolve_port (some "not a number") none = 8002 ∧
    resolve_port (some "70000") (some "5") = 8002 ∧
    resolve_port (some "443") (some "5") = 443 ∧
    resolve_port none none = 8002 :=
  ⟨resolve_port_spec.2.1 "not a number" none rfl,
   resolve_port_spec.2.2.1 "70000" (some "5") 70000 rfl (by decide),
   resolve_port_spec.2.2.2 "443" (some "5") 443 rfl (by decide) (by decide),
   (resolve_port_spec.1 none).trans
     (resolve_port_spec.2.2.2 "8002" none 8002 rfl (by decide) (by decide))⟩

theorem projDetectedItem_wellTyped {j : JsonVal} (h : WellTypedItem j) :
    ∃ d, projDetectedItem j = .ok d ∧ ItemReflects d j := by
  obtain ⟨kvs, rfl, ⟨n, hn⟩, hdesc, hbrand, hitem, hmodel, hret, hval,
    hconf, hdate⟩ := h
  obtain ⟨fdesc, hfd, hrd⟩ := projOptStr_reflects hdesc
  obtain ⟨fbrand, hfb, hrb⟩ := projOptStr_reflects hbrand
  obtain ⟨fitem, hfi, hri⟩ := projOptStr_reflects hitem
  obtain ⟨fmodel, hfm, hrm⟩ := projOptStr_reflects hmodel
  obtain ⟨fret, hfr, hrr⟩ := projOptStr_reflects hret
  obtain ⟨fval, hfv, hrv⟩ := projOptNum_reflects hval
  obtain ⟨fconf, hfc, hrc⟩ := projOptNum_reflects hconf
  obtain ⟨fdate, hfe, hre⟩ := projOptStr_reflects hdate
  refine ⟨⟨n, fdesc, fbrand, fitem, fmodel, fret, fval, fconf, fdate⟩, ?_, ?_⟩
  · simp [projDetectedItem, hn, hfd, hfb, hfi, hfm, hfr, hfv, hfc, hfe,
      projName, Bind.bind, Except.bind, Pure.pure, Except.pure]
  · intro kvs' heq
    injection heq with heq'
    subst heq'
    refine ⟨?_, hrd, hrb, hri, hrm, hrr, hrv, hrc, hre⟩
    intro n' hn'
    rw [hn] at hn'
    simp only [Option.some.injEq, JsonVal.str.injEq] at hn'
    simp [hn']

/-- C4: the identification decoder round-trips a well-typed reply exactly:
for every parsed object whose `items` entry is an array of schema-matching
item objects, decoding succeeds with one `DetectedItem` per source item
(in order), the raw text truncated to 500 characters, and each projected
item reflecting its source field-for-field — the `name` copied exactly,
every present optional field copied exactly, and every missing key mapped
to the absent value, never an empty string or zero. -/
theorem identify_decoder_roundtrip
    (kvs : List (String × JsonVal)) (items : List JsonVal) (text : String)
    (hitems : objGet kvs "items" = some (.arr items))
    (h : ∀ j ∈ items, WellTypedItem j) :
    ∃ ds, decodeIdentification (.obj kvs) text =
        .ok ⟨ds, some (truncate500 text)⟩ ∧
      List.Forall₂ ItemReflects ds items := by
  have main : ∀ (its : List JsonVal), (∀ j ∈ its, WellTypedItem j) →
      ∃ ds, projItemList its = .ok ds ∧ List.Forall₂ ItemReflects ds its := by
    intro its
    induction its with
    | nil => exact fun _ => ⟨[], rfl, List.Forall₂.nil⟩
    | cons j rest ih =>
      intro hits
      obtain ⟨d, hd, hrefl⟩ := projDetectedItem_wellTyped (hits j (by simp))
      obtain ⟨ds, hds, hf⟩ := ih (fun x hx => hits x (by simp [hx]))
      refine ⟨d :: ds, ?_, List.Forall₂.cons hrefl hf⟩
      simp [projItemList, hd, hds, Bind.bind, Except.bind, Pure.pure,
        Except.pure]
  obtain ⟨ds, hds, hf⟩ := main items h
  refine ⟨ds, ?_, hf⟩
  simp [decodeIdentification, hitems, projItems, hds, Bind.bind, Except.bind,
    Pure.pure, Except.pure]

theorem identify_decoder_roundtrip_witness :
    ∃ ds, decodeIdentification
        (.obj [("items", .arr [.obj [("name", .str "Tavern"),
          ("confidence", .num (9/10))]])])
        "t" = .ok ⟨ds, some (truncate500 "t")⟩ ∧
      List.Forall₂ ItemReflects ds
        [.obj [("name", .str "Tavern"), ("confidence", .num (9/10))]] :=
  identify_decoder_roundtrip _ _ _ rfl (by
    intro j hj
    simp only [List.mem_singleton] at hj
    subst hj
    exact ⟨_, rfl, ⟨"Tavern", rfl⟩, Or.inl rfl, Or.inl rfl, Or.inl rfl,
      Or.inl rfl, Or.inl rfl, Or.inl rfl, Or.inr (Or.inr ⟨9/10, rfl⟩),
      Or.inl rfl⟩)

/-- C5: every optional field of a response produced by the decode-and-
project step of any pipeline is either a well-typed value or explicitly
absent: a missing key and a JSON `null` are normalized uniformly into the
absent value, and an empty string appears only when the source JSON itself
held the empty string — never as a stand-in for absence. -/
theorem optional_fields_normalized :
    (∀ kvs text r, decodeDataTag (.obj kvs) text = .ok r →
      NormStr (objGet kvs "manufacturer") r.manufacturer ∧
      NormStr (objGet kvs "brand") r.brand ∧
      NormStr (objGet kvs "model_number") r.model_number ∧
      NormStr (objGet kvs "serial_number") r.serial_number ∧
      NormStr (objGet kvs "production_date") r.production_date ∧
      NormNum (objGet kvs "estimated_value") r.estimated_value ∧
      ((objGet kvs "additional_info" = none ∨
        objGet kvs "additional_info" = some .null) →
        r.additional_info = none)) ∧
    (∀ kvs text r, decodeBarcode (.obj kvs) text = .ok r →
      NormStr (objGet kvs "name") r.name ∧
      NormStr (objGet kvs "description") r.description ∧
      NormStr (objGet kvs "brand") r.brand ∧
      NormStr (objGet kvs "model_number") r.model_number ∧
      NormNum (objGet kvs "estimated_value") r.estimated_value ∧
      NormStr (objGet kvs "estimation_date") r.estimation_date ∧
      NormStr (objGet kvs "category") r.category) ∧
    (∀ kvs d, projDetectedItem (.obj kvs) = .ok d →
      NormStr (objGet kvs "description") d.description ∧
      NormStr (objGet kvs "brand") d.brand ∧
      NormStr (objGet kvs "item_number") d.item_number ∧
      NormStr (objGet kvs "model_number") d.model_number ∧
      NormStr (objGet kvs "retired_status") d.retired_status ∧
      NormNum (objGet kvs "estimated_value") d.estimated_value ∧
      NormNum (objGet kvs "confidence") d.confidence ∧
      NormStr (objGet kvs "estimation_date") d.estimation_date) := by
  refine ⟨fun kvs text r h => ?_, fun kvs text r h => ?_, fun kvs d h => ?_⟩
  · simp only [decodeDataTag] at h
    obtain ⟨m, hm, h⟩ := ebind_ok h
    obtain ⟨b, hb, h⟩ := ebind_ok h
    obtain ⟨mo, hmo, h⟩ := ebind_ok h
    obtain ⟨se, hse, h⟩ := ebind_ok h
    obtain ⟨pd, hpd, h⟩ := ebind_ok h
    obtain ⟨ev, hev, h⟩ := ebind_ok h
    obtain ⟨ai, hai, h⟩ := ebind_ok h
    simp only [Pure.pure, Except.pure, Except.ok.injEq] at h
    subst h
    exact ⟨projOptStr_norm hm, projOptStr_norm hb, projOptStr_norm hmo,
      projOptStr_norm hse, projOptStr_norm hpd, projOptNum_norm hev,
      projOptDict_norm hai⟩
  · simp only [decodeBarcode] at h
    obtain ⟨fo, hfo, h⟩ := ebind_ok h
    obtain ⟨na, hna, h⟩ := ebind_ok h
    obtain ⟨de, hde, h⟩ := ebind_ok h
    obtain ⟨b, hb, h⟩ := ebind_ok h
    obtain ⟨mo, hmo, h⟩ := ebind_ok h
    obtain ⟨ev, hev, h⟩ := ebind_ok h
    obtain ⟨ed, hed, h⟩ := ebind_ok h
    obtain ⟨ca, hca, h⟩ := ebind_ok h
    simp only [Pure.pure, Except.pure, Except.ok.injEq] at h
    subst h
    exact ⟨projOptStr_norm hna, projOptStr_norm hde, projOptStr_norm hb,
      projOptStr_norm hmo, projOptNum_norm hev, projOptStr_norm hed,
      projOptStr_norm hca⟩
  · simp only [projDetectedItem] at h
    obtain ⟨n, hn, h⟩ := ebind_ok h
    obtain ⟨de, hde, h⟩ := ebind_ok h
    obtain ⟨b, hb, h⟩ := ebind_ok h
    obtain ⟨it, hit, h⟩ := ebind_ok h
    obtain ⟨mo, hmo, h⟩ := ebind_ok h
    obtain ⟨re, hre, h⟩ := ebind_ok h
    obtain ⟨ev, hev, h⟩ := ebind_ok h
    obtain ⟨co, hco, h⟩ := ebind_ok h
    obtain ⟨ed, hed, h⟩ := ebind_ok h
    simp only [Pure.pure, Except.pure, Except.ok.injEq] at h
    subst h
    exact ⟨projOptStr_norm hde, projOptStr_norm hb, projOptStr_norm hit,
      projOptStr_norm hmo, projOptStr_norm hre, projOptNum_norm hev,
      projOptNum_norm hco, projOptStr_norm hed⟩

theorem optional_fields_normalized_witness :
    NormStr (objGet [("manufacturer", .null)] "manufacturer")
      (DataTagResponse.manufacturer
        ⟨none, none, none, none, none, none, none, some "t"⟩) ∧
    NormStr (objGet ([] : List (String × JsonVal)) "name")
      (BarcodeResponse.name
        ⟨false, none, none, none, none, none, none, none, some "t"⟩) ∧
    NormStr (objGet [("name", .str "x")] "description")
      (DetectedItem.description
        ⟨"x", none, none, none, none, none, none, none, none⟩) :=
  ⟨((optional_fields_normalized.1 [("manufacturer", .null)] "t"
      ⟨none, none, none, none, none, none, none, some "t"⟩ rfl).1),
   ((optional_fields_normalized.2.1 [] "t"
      ⟨false, none, none, none, none, none, none, none, some "t"⟩ rfl).1),
   ((optional_fields_normalized.2.2 [("name", .str "x")]
      ⟨"x", none, none, none, none, none, none, none, none⟩ rfl).1)⟩
